import Mathlib

/-!
Shallow embedding of the print_bot_2 core (src/main.rs, src/printer.rs,
src/time_range.rs) and proofs about it.

Conventions of the embedding:
- Rust `NaiveTime` values are modelled as milliseconds since midnight (`Nat`);
  `chrono` subtraction of two `NaiveTime`s yields a signed duration, so
  `(a - b).num_milliseconds() > 0` is exactly `b < a` on the millisecond count.
- Rust strings are Lean `String`s; `v.as_bytes().len()` is `String.utf8ByteSize`.
- The shared mutable budget counter (`Rc<RefCell<i64>>`) is modelled by
  explicit state passing of an `Int` counter; the printer channel send is
  modelled by accumulating the sent `PrinterMsg` values in a list.
- Device I/O (USB printer, V4L camera, HTTP downloads) is modelled by
  explicitly passed device doubles: a device is a state together with an
  `apply` step that may fail, mirroring `apply(Job) -> Result<(), DeviceError>`
  from the spec.
-/

set_option autoImplicit false

deriving instance DecidableEq for Except

namespace PrintBot

/-! ## time_range.rs -/

/-- Milliseconds-of-day encoding of `chrono::NaiveTime::from_hms(h, m, 0)`. -/
def from_hms (h m : Nat) : Nat := (h * 60 + m) * 60 * 1000

/-- Embeds `time_greater` from src/time_range.rs: `(a - b).num_milliseconds() > 0`. -/
def time_greater (a b : Nat) : Bool := decide (b < a)

/-- Embeds `TimeRange(pub NaiveTime, pub NaiveTime)` from src/time_range.rs. -/
def TimeRange := Nat × Nat

/-- Embeds `TimeRange::contains` from src/time_range.rs:
`time_greater(end, begin) != (time_greater(t, end) == time_greater(t, begin))`. -/
def TimeRange.contains (r : TimeRange) (t : Nat) : Bool :=
  time_greater r.2 r.1 != (time_greater t r.2 == time_greater t r.1)

/-! ## Printer messages (src/printer.rs) -/

/-- Embeds `image::RgbImage` as used by this program: a width, a height and a
flat row-major byte buffer with three bytes per pixel. -/
structure RgbImage where
  width : Nat
  height : Nat
  data : List Nat
  deriving DecidableEq, Repr

/-- Embeds `enum PrinterMsg { Image(image::RgbImage), Text(String) }` from
src/printer.rs. -/
inductive PrinterMsg where
  | Image (img : RgbImage)
  | Text (s : String)
  deriving DecidableEq, Repr

/-- Embeds `PRINTER_CHARS_PER_LINE` from src/printer.rs. -/
def PRINTER_CHARS_PER_LINE : Nat := 32

/-- Embeds `PRINTER_DOTS_PER_LINE` from src/printer.rs. -/
def PRINTER_DOTS_PER_LINE : Nat := 384

/-! ## Lua host callbacks (src/main.rs, `lua_thread`) -/

/-- Embeds the fragment of `mlua::Error` this program constructs or matches on:
`RuntimeError(String)` and, for the boundary match in `lua_thread`, a
catch-all for any other cause, abstracted to its `Display` rendering. -/
inductive LuaErrorCause where
  | RuntimeError (msg : String)
  | OtherCause (display : String)
  deriving DecidableEq, Repr

/-- State threaded through one budgeted host callback during a single
submission: the shared counter `Rc<RefCell<i64>>` plus the list of messages
sent to the printer channel so far. -/
structure CbState where
  remaining : Int
  sent : List PrinterMsg
  deriving DecidableEq, Repr

/-- Embeds the `print` host callback installed by `lua_thread`
(src/main.rs lines 206-214): decrement `remaining_bytes` by the byte length of
`v`; if the counter is still strictly positive, forward `PrinterMsg::Text(v)`
via `print_res` and succeed; otherwise raise
`RuntimeError("Text byte limit reached")`. -/
def printCb (v : String) (s : CbState) : Except LuaErrorCause Unit × CbState :=
  let r : Int := s.remaining - (v.utf8ByteSize : Int)
  if r > 0 then
    (Except.ok (), { remaining := r, sent := s.sent ++ [PrinterMsg.Text v] })
  else
    (Except.error (LuaErrorCause.RuntimeError "Text byte limit reached"),
      { remaining := r, sent := s.sent })

/-- Runs a list of `print` calls against one submission, starting from the
fresh per-submission state `lua_thread` builds at src/main.rs line 204:
`Rc::new(RefCell::new(max_bytes_text as i64))` and an empty send history.
Returns the per-call results and the final state. -/
def runTextEmits (max_bytes_text : Nat) (calls : List String) :
    List (Except LuaErrorCause Unit) × CbState :=
  calls.foldl
    (fun acc v =>
      let step := printCb v acc.2
      (acc.1 ++ [step.1], step.2))
    ([], { remaining := (max_bytes_text : Int), sent := [] })

/-- Embeds the per-submission loop body structure of `lua_thread`
(src/main.rs lines 190-215) at the granularity of text budgets: each
iteration of `loop` allocates a fresh counter from `max_bytes_text`, so each
submission in a sequence is evaluated against the full configured budget. -/
def runTextSubmissions (max_bytes_text : Nat) (subs : List (List String)) :
    List (List (Except LuaErrorCause Unit)) :=
  subs.map (fun calls => (runTextEmits max_bytes_text calls).1)

/-- Embeds `lua_image_to_rbgimage` from src/main.rs lines 275-293:
require the bit count to be a multiple of `PRINTER_DOTS_PER_LINE`, map each
`true` bit to the byte 0x00 repeated three times (a black RGB pixel) and each
`false` bit to 0xFF repeated three times (a white RGB pixel), and build an
`RgbImage` of width `PRINTER_DOTS_PER_LINE`. `RgbImage::from_raw` returns
`None` when the buffer length is not `width * height * 3`; the code turns that
into the context error given below. -/
def lua_image_to_rbgimage (image : List Bool) : Except String RgbImage :=
  if image.length % PRINTER_DOTS_PER_LINE ≠ 0 then
    Except.error "Err: Img width != 384"
  else
    let rgb := image.flatMap (fun px =>
      let b := if px then 0x00 else 0xFF
      [b, b, b])
    let w := PRINTER_DOTS_PER_LINE
    let h := image.length / PRINTER_DOTS_PER_LINE
    if rgb.length = w * h * 3 then
      Except.ok { width := w, height := h, data := rgb }
    else
      Except.error "Failed to create rgb image"

/-- Embeds the `image` host callback installed by `lua_thread`
(src/main.rs lines 220-233): decrement the image byte counter by the number of
booleans; if the counter stays strictly positive, convert the bit sequence
with `lua_image_to_rbgimage` (raising its error as a `RuntimeError` on
failure) and forward `PrinterMsg::Image`; otherwise raise
`RuntimeError("Image byte limit reached")`. -/
def printImageCb (v : List Bool) (s : CbState) : Except LuaErrorCause Unit × CbState :=
  let r : Int := s.remaining - (v.length : Int)
  if r > 0 then
    match lua_image_to_rbgimage v with
    | Except.ok img =>
        (Except.ok (), { remaining := r, sent := s.sent ++ [PrinterMsg.Image img] })
    | Except.error e =>
        (Except.error (LuaErrorCause.RuntimeError e), { remaining := r, sent := s.sent })
  else
    (Except.error (LuaErrorCause.RuntimeError "Image byte limit reached"),
      { remaining := r, sent := s.sent })

/-! ## Evaluation outcome mapping (src/main.rs, `lua_thread` and `value_to_string`) -/

/-- Embeds the fragment of `mlua::Value` matched by `value_to_string`.
Floats are abstracted to the decimal text `format!("{}", n)` produces, and a
Lua string is carried as its UTF-8 text (`to_str().unwrap_or("")`); any other
variant is carried as its `Debug` rendering. -/
inductive Value where
  | Nil
  | Boolean (b : Bool)
  | Integer (i : Int)
  | Number (decimal : String)
  | Str (s : String)
  | Other (debugForm : String)
  deriving DecidableEq, Repr

/-- Embeds `value_to_string` from src/main.rs lines 296-311. -/
def value_to_string : Value → String
  | Value.Nil => "nil"
  | Value.Boolean b => if b then "true" else "false"
  | Value.Integer i => toString i
  | Value.Number n => n
  | Value.Str s => "\"" ++ s ++ "\""
  | Value.Other d => d

/-- Embeds the result of `lua.load(&msg).eval::<mlua::MultiValue>()` as matched
by `lua_thread` at src/main.rs lines 251-268: success with a list of values,
`Error::CallbackError { cause, .. }` with its cause, or any other `mlua::Error`
abstracted to its `Display` rendering. -/
inductive EvalOutcome where
  | ok (values : List Value)
  | callbackError (cause : LuaErrorCause)
  | otherError (display : String)
  deriving DecidableEq, Repr

/-- Embeds the outcome match of `lua_thread` (src/main.rs lines 251-268): each
`print_res(.., PrinterMsg::Text(..))` call becomes one printed line.
A callback error whose cause is a `RuntimeError` prints the message verbatim;
any other callback error prints `"Callback error: <cause>"`; any other
evaluation error prints `"Error: <error>"`; success prints one
`value_to_string` line per result value. -/
def outcome_lines : EvalOutcome → List String
  | EvalOutcome.callbackError (LuaErrorCause.RuntimeError v) => [v]
  | EvalOutcome.callbackError (LuaErrorCause.OtherCause c) => ["Callback error: " ++ c]
  | EvalOutcome.otherError e => ["Error: " ++ e]
  | EvalOutcome.ok vs => vs.map value_to_string

/-! ## Camera arbiter (src/main.rs, `camera_thread`) -/

/-- A camera frame: `buffer.to_vec()`, a byte vector. -/
abbrev Frame := List Nat

/-- Embeds the serve loop of `camera_thread` (src/main.rs lines 121-125) over a
finite observed prefix of the request channel. `numClients` is the length of
the `clients` vector; `frames i` is the i-th frame `stream.next()` yields after
priming; `i` counts frames already pulled. Each iteration receives one client
index, pulls exactly one fresh frame, and sends it on that client's channel.
A request index out of bounds of the clients vector panics (`clients[idx]`),
modelled by `none`. The result lists the sends in the order performed, each a
pair of the destination client and the frame sent. -/
def camera_loop (numClients : Nat) : List Nat → (Nat → Frame) → Nat → Option (List (Nat × Frame))
  | [], _, _ => some []
  | id :: rest, frames, i =>
    if id < numClients then
      (camera_loop numClients rest frames (i + 1)).map (fun tail => (id, frames i) :: tail)
    else
      none

/-- Embeds `camera_thread` after device setup: the code discards 5 priming
frames (src/main.rs lines 114-119) and then enters the serve loop, so the
first served frame is `frames 5`. -/
def camera_thread (numClients : Nat) (requests : List Nat) (frames : Nat → Frame) :
    Option (List (Nat × Frame)) :=
  camera_loop numClients requests frames 5

/-! ## Printer worker and its supervisor (src/printer.rs `printer_thread`,
src/main.rs lines 532-538) -/

/-- A device double for the POS58 printer: `init` models
`POS58USB::new` plus the welcome banner write (both fallible, src/printer.rs
lines 42-51), and `apply` models fully applying one job — the
`chain_align(..)?.chain_println(..)? / chain_bit_image(..)?.flush()?` sequence
for that job, any of whose errors propagates out of `printer_thread` via `?`. -/
structure DeviceModel (Dev : Type) where
  init : Except String Dev
  apply : Dev → PrinterMsg → Except String Dev

/-- Observable outcome of one run of `printer_thread`: the jobs fully applied
to the device during the run, the jobs still sitting un-received on the channel
when the run returned, and the message of the `Err` it returned with.
`printer_thread` never returns `Ok`: either a job application fails via `?`,
or `receiver.recv()` fails (channel closed) and it returns
`Err("Printer thread stopped, restarting.")`. -/
structure RunResult where
  applied : List PrinterMsg
  remaining : List PrinterMsg
  err : String
  deriving DecidableEq, Repr

/-- Embeds the `while let Ok(msg) = receiver.recv()` serve loop of
`printer_thread` (src/printer.rs lines 55-70) over the finite observed queue
content: receive a job, apply it; on an apply error, return at once with that
error, leaving the rest of the queue on the channel; when the queue is
exhausted (channel closed), return the restart error. -/
def printer_serve {Dev : Type} (D : DeviceModel Dev) :
    Dev → List PrinterMsg → List PrinterMsg → RunResult
  | _, applied, [] =>
    { applied := applied, remaining := [],
      err := "Printer thread stopped, restarting." }
  | dev, applied, j :: rest =>
    match D.apply dev j with
    | Except.ok dev2 => printer_serve D dev2 (applied ++ [j]) rest
    | Except.error e => { applied := applied, remaining := rest, err := e }

/-- Embeds one run of `printer_thread` (src/printer.rs lines 38-71): device
init and banner first — an init failure returns before any job is received —
then the serve loop. -/
def printer_thread {Dev : Type} (D : DeviceModel Dev) (queue : List PrinterMsg) : RunResult :=
  match D.init with
  | Except.error e => { applied := [], remaining := queue, err := e }
  | Except.ok dev => printer_serve D dev [] queue

/-- Embeds the printer supervisor loop of `main` (src/main.rs lines 532-538):
`loop { log_result(printer_thread(&mut receiver)) }`. The same `receiver` is
passed to every run, so jobs left on the channel by a failed run are received
by the next run. We observe finitely many runs, each with its own device
double (the device is re-opened each run and may behave differently after a
reconnect). Returns, per run, the jobs applied and the logged error message,
plus the jobs still queued after the last observed run. -/
def printer_supervisor {Dev : Type} :
    List (DeviceModel Dev) → List PrinterMsg → List (List PrinterMsg × String) × List PrinterMsg
  | [], queue => ([], queue)
  | D :: rest, queue =>
    let r := printer_thread D queue
    let tail := printer_supervisor rest r.remaining
    ((r.applied, r.err) :: tail.1, tail.2)

/-! ## Print handler (src/printer.rs, `PrintHandler::handle_print_request`) -/

/-- Strips `pat` once from the front of `s`, if it is a prefix. -/
def stripPfx : List Char → List Char → Option (List Char)
  | [], s => some s
  | _ :: _, [] => none
  | p :: ps, c :: cs => if p = c then stripPfx ps cs else none

/-- Fuel-indexed worker for `trim_start_matches`; each successful strip of a
nonempty pattern shortens the text, so fuel equal to the text length suffices. -/
def trimStartMatchesAux (pat : List Char) : Nat → List Char → List Char
  | 0, s => s
  | Nat.succ fuel, s =>
    match stripPfx pat s with
    | some rest => if rest.length < s.length then trimStartMatchesAux pat fuel rest else s
    | none => s

/-- Embeds Rust `str::trim_start_matches(pat)`: repeatedly remove `pat` from
the front while it is a prefix. -/
def trim_start_matches (s pat : String) : String :=
  String.mk (trimStartMatchesAux pat.data s.data.length s.data)

/-- Embeds Rust `str::trim_start` on the character set this embedding covers
(Lean `Char.isWhitespace` is the ASCII fragment of the Unicode White_Space set
Rust uses; they agree on all inputs appearing here). -/
def trim_start (s : String) : String :=
  String.mk (s.data.dropWhile (fun c => c.isWhitespace))

/-- Embeds `PRINT_COMMAND` from src/main.rs. -/
def PRINT_COMMAND : String := "!print"

/-- Embeds the fields of `discord::model::Attachment` that
`handle_print_request` reads: `dimensions().is_some()` and `url`. -/
structure Attachment where
  has_dimensions : Bool
  url : String
  deriving DecidableEq, Repr

/-- Embeds the fields of `discord::model::Message` that `handle_print_request`
reads. `timestamp_fmt` carries the rendering of
`message.timestamp.format("%m/%d/%y %H:%M")`. -/
structure Message where
  content : String
  attachments : List Attachment
  author_name : String
  timestamp_fmt : String
  deriving DecidableEq, Repr

/-- The external collaborators of `handle_print_request`, passed as explicit
doubles: `validate_url` embeds `validate_url` from src/printer.rs lines
216-227 (URL parse plus the image-extension allow-list; `some` means the text
is a printable image URL), and `print_image` embeds the network-and-dither
pipeline of `PrintHandler::print_image` (src/printer.rs lines 153-212) up to
the point where it sends `PrinterMsg::Image` — `Except.error` is a failure
that propagates out of `handle_print_request` via `?`. -/
structure WebPipeline where
  validate_url : String → Option String
  print_image : String → Except String RgbImage

/-- Embeds the attachment loop of `handle_print_request` (src/printer.rs lines
133-139): for each attachment reporting dimensions whose URL validates, run the
image pipeline and send the resulting image job; a pipeline failure returns at
once with the jobs already sent. -/
def handle_attachments (W : WebPipeline) :
    List Attachment → List PrinterMsg → List PrinterMsg × Except String Unit
  | [], sent => (sent, Except.ok ())
  | att :: rest, sent =>
    if att.has_dimensions then
      match W.validate_url att.url with
      | some url =>
        match W.print_image url with
        | Except.ok img => handle_attachments W rest (sent ++ [PrinterMsg.Image img])
        | Except.error e => (sent, Except.error e)
      | none => handle_attachments W rest sent
    else
      handle_attachments W rest sent

/-- Embeds `PrintHandler::handle_print_request` (src/printer.rs lines 99-141).
Returns the jobs sent to the printer channel, in order, together with the
`Result` the method returns (`print_text` itself cannot fail while the printer
channel is alive, which this embedding assumes; `print_image` failures
propagate via `?` after the jobs already sent). -/
def handle_print_request (W : WebPipeline) (msg : Message) :
    List PrinterMsg × Except String Unit :=
  let text := trim_start (trim_start_matches msg.content PRINT_COMMAND)
  if text = "" ∧ msg.attachments = [] then
    ([], Except.ok ())
  else
    let full_date := msg.author_name ++ " " ++ msg.timestamp_fmt ++ ":"
    let header :=
      if full_date.length > PRINTER_CHARS_PER_LINE then msg.author_name ++ ": "
      else full_date
    let sentHeader := [PrinterMsg.Text header]
    let afterBody : List PrinterMsg × Except String Unit :=
      if text ≠ "" then
        match W.validate_url text with
        | some url =>
          match W.print_image url with
          | Except.ok img => (sentHeader ++ [PrinterMsg.Image img], Except.ok ())
          | Except.error e => (sentHeader, Except.error e)
        | none => (sentHeader ++ [PrinterMsg.Text text], Except.ok ())
      else
        (sentHeader, Except.ok ())
    match afterBody with
    | (sent, Except.ok ()) => handle_attachments W msg.attachments sent
    | failed => failed

/-! ## Concrete test doubles -/

/-- A printer device double whose state logs the jobs applied so far and whose
`apply` fails with a transient error, not a link-lost one, exactly on the job
`Text "bad"`. -/
def jamDevice : DeviceModel (List PrinterMsg) where
  init := Except.ok []
  apply := fun dev j =>
    if j = PrinterMsg.Text "bad" then Except.error "paper jam" else Except.ok (dev ++ [j])

/-- A printer device double that initializes and applies every job
successfully, logging the applied jobs in its state. -/
def goodDevice : DeviceModel (List PrinterMsg) where
  init := Except.ok []
  apply := fun dev j => Except.ok (dev ++ [j])

/-- A web pipeline double for which no message text or attachment URL
validates as an image URL and every download fails. -/
def noNetwork : WebPipeline where
  validate_url := fun _ => none
  print_image := fun _ => Except.error "Image download failed"

/-! ## Theorems -/

/-- C6: the time-window predicate satisfies
`TimeRange(10:00, 14:00).contains(13:00) = true`, `.contains(09:00) = false`,
and for the wrap-around window `TimeRange(14:00, 10:00)` (begin > end, active
overnight) `.contains(23:00) = true` and `.contains(12:00) = false`. -/
theorem c6_time_window_examples :
    TimeRange.contains (from_hms 10 0, from_hms 14 0) (from_hms 13 0) = true ∧
    TimeRange.contains (from_hms 10 0, from_hms 14 0) (from_hms 9 0) = false ∧
    TimeRange.contains (from_hms 14 0, from_hms 10 0) (from_hms 23 0) = true ∧
    TimeRange.contains (from_hms 14 0, from_hms 10 0) (from_hms 12 0) = false := by
  decide

/-- C1, counterexample: with the text-byte budget configured to 10, the claim
asserts the second emit-text call of byte length 5 succeeds; in the code the
counter is first decremented to exactly 0 and the success test is
`*remaining_bytes > 0` (src/main.rs line 209), so the second call fails. -/
theorem c1_counterexample :
    (runTextEmits 10 ["aaaaa", "bbbbb", "c"]).1.get? 1 ≠ some (Except.ok ()) := by
  decide

/-- C1, amended: with the text-byte budget configured to 10, a first emit-text
call of byte length 5 succeeds; a second emit-text call of byte length 5 fails
with the resource-exhaustion error (the counter reaches 0, which is not
strictly positive); a third emit-text call of byte length 1 also fails; and a
subsequent fresh submission starts again with the full configured budget, so
its first emit of byte length 5 succeeds. -/
theorem c1_amended :
    runTextSubmissions 10 [["aaaaa", "bbbbb", "c"], ["ddddd"]] =
      [[Except.ok (),
        Except.error (LuaErrorCause.RuntimeError "Text byte limit reached"),
        Except.error (LuaErrorCause.RuntimeError "Text byte limit reached")],
       [Except.ok ()]] := by
  decide

/-- C5: for every string `v`, the emit-text callback decrements the text-byte
counter by the byte length of `v`; if the counter is still strictly positive
after the decrement, the call succeeds and forwards exactly `Text v` to the
printer sink; if the counter is non-positive after the decrement, the call
raises the resource-exhaustion runtime error and forwards nothing. -/
theorem c5_emit_text_callback (v : String) (s : CbState) :
    ((printCb v s).2.remaining = s.remaining - (v.utf8ByteSize : Int)) ∧
    ((printCb v s).2.remaining > 0 →
      (printCb v s).1 = Except.ok () ∧
      (printCb v s).2.sent = s.sent ++ [PrinterMsg.Text v]) ∧
    ((printCb v s).2.remaining ≤ 0 →
      (printCb v s).1 = Except.error (LuaErrorCause.RuntimeError "Text byte limit reached") ∧
      (printCb v s).2.sent = s.sent) := by
  unfold printCb
  by_cases h : s.remaining - (v.utf8ByteSize : Int) > 0
  all_goals simp [h]
  all_goals omega

/-- C5, witness: at the concrete inputs `"hi"` with 10 bytes remaining (the
positive branch) and `"hi"` with 1 byte remaining (the exhausted branch). -/
theorem c5_emit_text_callback_witness :
    ((printCb "hi" { remaining := 10, sent := [] }).1 = Except.ok () ∧
      (printCb "hi" { remaining := 10, sent := [] }).2.sent = [] ++ [PrinterMsg.Text "hi"]) ∧
    ((printCb "hi" { remaining := 1, sent := [] }).1 =
        Except.error (LuaErrorCause.RuntimeError "Text byte limit reached") ∧
      (printCb "hi" { remaining := 1, sent := [] }).2.sent = []) :=
  ⟨(c5_emit_text_callback "hi" { remaining := 10, sent := [] }).2.1 (by decide),
   (c5_emit_text_callback "hi" { remaining := 1, sent := [] }).2.2 (by decide)⟩

/-- Helper: the RGB expansion writes exactly three bytes per input bit. -/
theorem length_rgb_expansion (l : List Bool) :
    (l.flatMap (fun px => let b : Nat := if px then 0x00 else 0xFF; [b, b, b])).length
      = 3 * l.length := by
  induction l with
  | nil => simp
  | cons a t ih =>
    simp [ih]
    omega

/-- Helper: on a bit count divisible by the dot width, `lua_image_to_rbgimage`
succeeds and produces the width-384 bitmap with one black pixel per 1 bit and
one white pixel per 0 bit. -/
theorem lua_image_to_rbgimage_ok (v : List Bool)
    (hdiv : v.length % PRINTER_DOTS_PER_LINE = 0) :
    lua_image_to_rbgimage v = Except.ok
      { width := PRINTER_DOTS_PER_LINE
        height := v.length / PRINTER_DOTS_PER_LINE
        data := v.flatMap (fun px => let b : Nat := if px then 0x00 else 0xFF; [b, b, b]) } := by
  have hdvd : PRINTER_DOTS_PER_LINE ∣ v.length := Nat.dvd_of_mod_eq_zero hdiv
  have hcancel : PRINTER_DOTS_PER_LINE * (v.length / PRINTER_DOTS_PER_LINE) = v.length :=
    Nat.mul_div_cancel' hdvd
  unfold lua_image_to_rbgimage
  rw [if_neg (by simp [hdiv])]
  rw [if_pos]
  rw [length_rgb_expansion, hcancel]
  omega

/-- C8: for every bit sequence `v`, the emit-image callback decrements the
image-byte counter by the bit count; when the counter stays strictly positive
and the bit count is divisible by the printer dot width 384, it forwards
exactly one `Image` job whose bitmap has width 384, height `v.length / 384`,
and three bytes per bit — 0x00 (black) for a 1 bit, 0xFF (white) for a 0 bit;
when the counter stays positive but the bit count is not divisible by 384, it
raises the width error and forwards nothing; and when the counter is
non-positive after the decrement, it raises the resource-exhaustion error and
forwards nothing. -/
theorem c8_emit_image_callback (v : List Bool) (s : CbState) :
    ((printImageCb v s).2.remaining = s.remaining - (v.length : Int)) ∧
    ((printImageCb v s).2.remaining > 0 → v.length % PRINTER_DOTS_PER_LINE = 0 →
      (printImageCb v s).1 = Except.ok () ∧
      (printImageCb v s).2.sent = s.sent ++ [PrinterMsg.Image
        { width := PRINTER_DOTS_PER_LINE
          height := v.length / PRINTER_DOTS_PER_LINE
          data := v.flatMap (fun px => let b : Nat := if px then 0x00 else 0xFF; [b, b, b]) }]) ∧
    ((printImageCb v s).2.remaining > 0 → v.length % PRINTER_DOTS_PER_LINE ≠ 0 →
      (printImageCb v s).1 = Except.error (LuaErrorCause.RuntimeError "Err: Img width != 384") ∧
      (printImageCb v s).2.sent = s.sent) ∧
    ((printImageCb v s).2.remaining ≤ 0 →
      (printImageCb v s).1 = Except.error (LuaErrorCause.RuntimeError "Image byte limit reached") ∧
      (printImageCb v s).2.sent = s.sent) := by
  by_cases hr : s.remaining - (v.length : Int) > 0
  · by_cases hdiv : v.length % PRINTER_DOTS_PER_LINE = 0
    · have hok := lua_image_to_rbgimage_ok v hdiv
      unfold printImageCb
      simp [hr, hok, hdiv]
      omega
    · have herr : lua_image_to_rbgimage v = Except.error "Err: Img width != 384" := by
        unfold lua_image_to_rbgimage
        rw [if_pos (by simpa using hdiv)]
      unfold printImageCb
      simp [hr, herr, hdiv]
      omega
  · unfold printImageCb
    simp [hr]

set_option maxRecDepth 10000 in
/-- C8, witness: the three branches at concrete inputs — 384 one-bits with a
large budget forward an image; a single bit with a large budget hits the width
error; a single bit with the counter landing on 0 hits the exhaustion error. -/
theorem c8_emit_image_callback_witness :
    ((printImageCb (List.replicate 384 true) { remaining := 2000, sent := [] }).1
        = Except.ok ()) ∧
    ((printImageCb [true] { remaining := 2000, sent := [] }).1
        = Except.error (LuaErrorCause.RuntimeError "Err: Img width != 384")) ∧
    ((printImageCb [true] { remaining := 1, sent := [] }).1
        = Except.error (LuaErrorCause.RuntimeError "Image byte limit reached")) :=
  ⟨((c8_emit_image_callback (List.replicate 384 true)
      { remaining := 2000, sent := [] }).2.1 (by decide) (by decide)).1,
   ((c8_emit_image_callback [true]
      { remaining := 2000, sent := [] }).2.2.1 (by decide) (by decide)).1,
   ((c8_emit_image_callback [true]
      { remaining := 1, sent := [] }).2.2.2 (by decide)).1⟩

/-- C7, counterexample: the claim asserts every evaluation error other than a
host-callback runtime error prints one line of the form `"Error: <message>"`.
A `CallbackError` whose cause is not a `RuntimeError` is such an error, yet
the match at src/main.rs lines 255-260 prints
`"Callback error: <cause>"` for it, which is not of the claimed form. -/
theorem c7_counterexample :
    outcome_lines (EvalOutcome.callbackError (LuaErrorCause.OtherCause "boom"))
      = ["Callback error: boom"] ∧
    ¬ ∃ m, outcome_lines (EvalOutcome.callbackError (LuaErrorCause.OtherCause "boom"))
      = ["Error: " ++ m] := by
  refine ⟨rfl, ?_⟩
  rintro ⟨⟨l⟩, h⟩
  simp [outcome_lines] at h
  have h2 := congrArg String.data h
  simp [String.append] at h2

/-- C7, amended: the outcome of one evaluated submission maps to printed lines
as follows — a runtime error raised by a host callback yields its message
verbatim as one line; a callback error with any other cause yields one line
`"Callback error: <cause>"`; any other evaluation error yields one line
`"Error: <message>"`; and a successful evaluation producing N values yields
one line per value, rendered by type: nil as `nil`, a boolean as `true` or
`false`, an integer or float as decimal text, a string as quoted text, and
any other value as its debug form. -/
theorem c7_amended (o : EvalOutcome) :
    (∀ v, o = EvalOutcome.callbackError (LuaErrorCause.RuntimeError v) →
      outcome_lines o = [v]) ∧
    (∀ c, o = EvalOutcome.callbackError (LuaErrorCause.OtherCause c) →
      outcome_lines o = ["Callback error: " ++ c]) ∧
    (∀ e, o = EvalOutcome.otherError e → outcome_lines o = ["Error: " ++ e]) ∧
    (∀ vs, o = EvalOutcome.ok vs →
      outcome_lines o = vs.map value_to_string ∧
      (outcome_lines o).length = vs.length) ∧
    (value_to_string Value.Nil = "nil") ∧
    (∀ b, value_to_string (Value.Boolean b) = if b then "true" else "false") ∧
    (∀ i, value_to_string (Value.Integer i) = toString i) ∧
    (∀ n, value_to_string (Value.Number n) = n) ∧
    (∀ s, value_to_string (Value.Str s) = "\"" ++ s ++ "\"") ∧
    (∀ d, value_to_string (Value.Other d) = d) := by
  refine ⟨?_, ?_, ?_, ?_, rfl, ?_, ?_, ?_, ?_, ?_⟩
  · rintro v rfl
    rfl
  · rintro c rfl
    rfl
  · rintro e rfl
    rfl
  · rintro vs rfl
    exact ⟨rfl, by simp [outcome_lines]⟩
  · intro b
    rfl
  · intro i
    rfl
  · intro n
    rfl
  · intro s
    rfl
  · intro d
    rfl

/-- C7, witness: the amended mapping applied at one concrete outcome of each
shape, discharging each equation hypothesis. -/
theorem c7_amended_witness :
    outcome_lines (EvalOutcome.callbackError (LuaErrorCause.RuntimeError "Instruction limit reached"))
      = ["Instruction limit reached"] ∧
    outcome_lines (EvalOutcome.callbackError (LuaErrorCause.OtherCause "boom"))
      = ["Callback error: " ++ "boom"] ∧
    outcome_lines (EvalOutcome.otherError "oops") = ["Error: " ++ "oops"] ∧
    outcome_lines (EvalOutcome.ok [Value.Nil, Value.Boolean true, Value.Integer 3])
      = ["nil", "true", "3"] := by
  refine ⟨?_, ?_, ?_, ?_⟩
  · exact (c7_amended (EvalOutcome.callbackError
      (LuaErrorCause.RuntimeError "Instruction limit reached"))).1 "Instruction limit reached" rfl
  · exact (c7_amended (EvalOutcome.callbackError (LuaErrorCause.OtherCause "boom"))).2.1 "boom" rfl
  · exact (c7_amended (EvalOutcome.otherError "oops")).2.2.1 "oops" rfl
  · have h := ((c7_amended (EvalOutcome.ok [Value.Nil, Value.Boolean true, Value.Integer 3])).2.2.2.1
      [Value.Nil, Value.Boolean true, Value.Integer 3] rfl).1
    rw [h]
    decide

/-- Helper: full characterization of the camera serve loop on any request
sequence whose client indices are all in range: the loop performs one send per
request; the k-th send carries the (i+k)-th device frame and goes to the
client named by the k-th request. -/
theorem camera_loop_spec (numClients : Nat) (frames : Nat → Frame) :
    ∀ (reqs : List Nat) (i : Nat), (∀ id ∈ reqs, id < numClients) →
    ∃ out, camera_loop numClients reqs frames i = some out ∧
      out.length = reqs.length ∧
      ∀ k, out[k]? = (reqs[k]?).map (fun id => (id, frames (i + k))) := by
  intro reqs
  induction reqs with
  | nil =>
    intro i _
    exact ⟨[], rfl, rfl, fun k => by simp⟩
  | cons id rest ih =>
    intro i h
    have hid : id < numClients := h id (by simp)
    obtain ⟨out, hout, hlen, hget⟩ := ih (i + 1) (fun x hx => h x (by simp [hx]))
    refine ⟨(id, frames i) :: out, ?_, ?_, ?_⟩
    · simp [camera_loop, hid, hout]
    · simp [hlen]
    · intro k
      cases k with
      | zero => simp
      | succ k =>
        rw [show i + (k + 1) = i + 1 + k from by omega]
        simpa using hget k

/-- C4: for every sequence of capture requests from registered client ids (ids
within the bounds of the clients vector), the arbiter performs exactly one
send per request; the k-th send delivers one fresh frame (the k-th frame
pulled after priming) and delivers it precisely on the channel of the client
that issued the k-th request, so each frame answers exactly one request and
the deliveries occur in request order. -/
theorem c4_camera_arbiter (numClients : Nat) (reqs : List Nat) (frames : Nat → Frame)
    (hreq : ∀ id ∈ reqs, id < numClients) :
    ∃ out, camera_thread numClients reqs frames = some out ∧
      out.length = reqs.length ∧
      ∀ k, out[k]? = (reqs[k]?).map (fun id => (id, frames (5 + k))) :=
  camera_loop_spec numClients frames reqs 5 hreq

/-- C4, witness: two registered clients, requests [0, 1, 0], and the device
double that returns `[i]` as the i-th frame. -/
theorem c4_camera_arbiter_witness :
    ∃ out, camera_thread 2 [0, 1, 0] (fun i => [i]) = some out ∧
      out.length = 3 ∧
      ∀ k, out[k]? = (([0, 1, 0] : List Nat)[k]?).map (fun id => (id, [5 + k])) :=
  c4_camera_arbiter 2 [0, 1, 0] (fun i => [i]) (by decide)

/-- C2, counterexample: the claim asserts that every job-application error
other than a distinguished link-lost error is non-fatal and the worker serves
the next job. With a device double failing on the first job with the transient
error "paper jam" — not a link-lost error — the run ends immediately with that
error: the next queued job `Text "ok"` is left on the channel and is not
served by the running worker, which instead returns and is restarted. -/
theorem c2_counterexample :
    printer_thread jamDevice [PrinterMsg.Text "bad", PrinterMsg.Text "ok"]
      = { applied := [], remaining := [PrinterMsg.Text "ok"], err := "paper jam" } ∧
    PrinterMsg.Text "ok" ∉
      (printer_thread jamDevice [PrinterMsg.Text "bad", PrinterMsg.Text "ok"]).applied := by
  decide

/-- C2, amended: every error encountered while applying a job — of any kind,
there is no distinguished link-lost class — propagates out of the serve loop
via `?`: the run ends at once with that error, the jobs already applied stay
applied, the failing job is consumed without completing, and the later jobs
stay queued; the supervisor loop logs the returned error and respawns the
worker, which re-initializes the device and continues from the remaining
queue. -/
theorem c2_amended {Dev : Type} (D : DeviceModel Dev) (dev : Dev)
    (applied : List PrinterMsg) (j : PrinterMsg) (rest : List PrinterMsg) (e : String)
    (happly : D.apply dev j = Except.error e) :
    printer_serve D dev applied (j :: rest)
      = { applied := applied, remaining := rest, err := e } ∧
    (∀ (runs : List (DeviceModel Dev)) (queue : List PrinterMsg),
      (printer_supervisor (D :: runs) queue).1
        = ((printer_thread D queue).applied, (printer_thread D queue).err)
          :: (printer_supervisor runs (printer_thread D queue).remaining).1) := by
  constructor
  · simp [printer_serve, happly]
  · intro runs queue
    rfl

/-- C2, witness: the amended behavior at the paper-jam device double — the
serve loop stops at the failing job, and the one-run supervisor logs the
error. -/
theorem c2_amended_witness :
    printer_serve jamDevice [] [] [PrinterMsg.Text "bad", PrinterMsg.Text "ok"]
      = { applied := [], remaining := [PrinterMsg.Text "ok"], err := "paper jam" } ∧
    (printer_supervisor [jamDevice] [PrinterMsg.Text "bad", PrinterMsg.Text "ok"]).1
      = [([], "paper jam")] := by
  have h := c2_amended jamDevice ([] : List PrinterMsg) [] (PrinterMsg.Text "bad")
    [PrinterMsg.Text "ok"] "paper jam" (by decide)
  refine ⟨by simpa using h.1, ?_⟩
  rw [h.2 [] [PrinterMsg.Text "bad", PrinterMsg.Text "ok"]]
  decide

/-- C3, counterexample: the claim asserts every job queued but unprocessed at
the moment of a fatal failure is silently discarded and never applied after
the restart. With the paper-jam device double failing on the first job and
the reconnected device healthy, the post-restart run receives and applies the
job `Text "ok"` that was queued but unprocessed at the failure: the channel
outlives the restart in `main`, so queued jobs are served, not discarded. -/
theorem c3_counterexample :
    (printer_supervisor [jamDevice, goodDevice]
        [PrinterMsg.Text "bad", PrinterMsg.Text "ok"]).1
      = [([], "paper jam"),
         ([PrinterMsg.Text "ok"], "Printer thread stopped, restarting.")] ∧
    PrinterMsg.Text "ok" ∈
      ((printer_supervisor [jamDevice, goodDevice]
        [PrinterMsg.Text "bad", PrinterMsg.Text "ok"]).1.getD 1 ([], "")).1 := by
  decide

/-- Helper: a device whose `apply` always succeeds serves the whole queue and
returns the channel-closed restart error. -/
theorem printer_serve_all_ok {Dev : Type} (D : DeviceModel Dev)
    (hok : ∀ dev j, ∃ devNext, D.apply dev j = Except.ok devNext) :
    ∀ (queue : List PrinterMsg) (dev : Dev) (applied : List PrinterMsg),
    printer_serve D dev applied queue =
      { applied := applied ++ queue, remaining := [],
        err := "Printer thread stopped, restarting." } := by
  intro queue
  induction queue with
  | nil =>
    intro dev applied
    simp [printer_serve]
  | cons j rest ih =>
    intro dev applied
    obtain ⟨devNext, h⟩ := hok dev j
    simp [printer_serve, h, ih]

/-- C3, amended: when the printer worker hits an error and restarts, the jobs
queued but not yet received at the moment of failure are not discarded: the
channel outlives the restart, so the restarted worker receives them in their
original order, and when the reconnected device initializes and applies jobs
successfully it applies every one of them, draining the queue; only the job
being applied at the failure is consumed without being completed. -/
theorem c3_amended {Dev : Type} (D1 D2 : DeviceModel Dev) (dev2 : Dev)
    (hinit : D2.init = Except.ok dev2)
    (hok : ∀ dev j, ∃ devNext, D2.apply dev j = Except.ok devNext)
    (queue : List PrinterMsg) :
    (printer_supervisor [D1, D2] queue).1
      = [((printer_thread D1 queue).applied, (printer_thread D1 queue).err),
         ((printer_thread D1 queue).remaining, "Printer thread stopped, restarting.")] ∧
    (printer_supervisor [D1, D2] queue).2 = [] := by
  have h2 : printer_thread D2 (printer_thread D1 queue).remaining
      = { applied := (printer_thread D1 queue).remaining, remaining := [],
          err := "Printer thread stopped, restarting." } := by
    unfold printer_thread
    rw [hinit]
    simpa using printer_serve_all_ok D2 hok ((printer_thread D1 queue).remaining) dev2 []
  constructor
  · simp [printer_supervisor, h2]
  · simp [printer_supervisor, h2]

/-- C3, witness: the amended behavior at the concrete two-run scenario — the
restarted healthy device applies exactly the job left queued by the failed
run, and the queue ends empty. -/
theorem c3_amended_witness :
    (printer_supervisor [jamDevice, goodDevice]
        [PrinterMsg.Text "bad", PrinterMsg.Text "ok"]).1
      = [((printer_thread jamDevice [PrinterMsg.Text "bad", PrinterMsg.Text "ok"]).applied,
          (printer_thread jamDevice [PrinterMsg.Text "bad", PrinterMsg.Text "ok"]).err),
         ((printer_thread jamDevice [PrinterMsg.Text "bad", PrinterMsg.Text "ok"]).remaining,
          "Printer thread stopped, restarting.")] ∧
    (printer_supervisor [jamDevice, goodDevice]
        [PrinterMsg.Text "bad", PrinterMsg.Text "ok"]).2 = [] :=
  c3_amended jamDevice goodDevice [] rfl (fun dev j => ⟨dev ++ [j], rfl⟩)
    [PrinterMsg.Text "bad", PrinterMsg.Text "ok"]

/-- Helper: the attachment loop only appends to the jobs already sent. -/
theorem handle_attachments_prefix (W : WebPipeline) :
    ∀ (atts : List Attachment) (sent : List PrinterMsg),
    ∃ tail, (handle_attachments W atts sent).1 = sent ++ tail := by
  intro atts
  induction atts with
  | nil =>
    intro sent
    exact ⟨[], by simp [handle_attachments]⟩
  | cons att rest ih =>
    intro sent
    unfold handle_attachments
    by_cases hd : att.has_dimensions
    · rw [if_pos hd]
      cases hv : W.validate_url att.url with
      | none => exact ih sent
      | some url =>
        cases hp : W.print_image url with
        | ok img =>
          obtain ⟨tail, ht⟩ := ih (sent ++ [PrinterMsg.Image img])
          refine ⟨PrinterMsg.Image img :: tail, ?_⟩
          simp only [hp]
          rw [ht]
          simp
        | error e =>
          refine ⟨[], ?_⟩
          simp [hp]
    · rw [if_neg hd]
      exact ih sent

/-- Helper: whatever the attachment loop does, the first job sent before it
stays the first job overall. -/
theorem handle_attachments_head (W : WebPipeline) (atts : List Attachment)
    (hdr : PrinterMsg) (rest : List PrinterMsg) :
    (handle_attachments W atts (hdr :: rest)).1.head? = some hdr := by
  obtain ⟨tail, ht⟩ := handle_attachments_prefix W atts (hdr :: rest)
  simp [ht]

/-- C10: a print request whose message text after the command token trims to
the empty string and whose attachment list is empty returns success and sends
no job at all to the printer queue, not even the header job. -/
theorem c10_empty_print_request (W : WebPipeline) (msg : Message)
    (htext : trim_start (trim_start_matches msg.content PRINT_COMMAND) = "")
    (hatt : msg.attachments = []) :
    handle_print_request W msg = ([], Except.ok ()) := by
  simp [handle_print_request, htext, hatt]

/-- C10, witness: a request of only the command token and trailing spaces with
no attachments, against the offline pipeline double. -/
theorem c10_empty_print_request_witness :
    handle_print_request noNetwork
      { content := "!print   ", attachments := [],
        author_name := "al", timestamp_fmt := "01/02/03 04:05" }
      = ([], Except.ok ()) :=
  c10_empty_print_request noNetwork
    { content := "!print   ", attachments := [],
      author_name := "al", timestamp_fmt := "01/02/03 04:05" }
    (by decide) rfl

/-- C9: for every print request that prints at all (it is not the empty
early-return case), the first job sent is the header line, formatted
`"<author> <date>:"`, except that when that string's character count exceeds
the 32-character printer line width the shortened form `"<author>: "` is sent
instead. -/
theorem c9_header_line (W : WebPipeline) (msg : Message)
    (h : ¬ (trim_start (trim_start_matches msg.content PRINT_COMMAND) = ""
            ∧ msg.attachments = [])) :
    (handle_print_request W msg).1.head? =
      some (PrinterMsg.Text
        (if (msg.author_name ++ " " ++ msg.timestamp_fmt ++ ":").length > PRINTER_CHARS_PER_LINE
         then msg.author_name ++ ": "
         else msg.author_name ++ " " ++ msg.timestamp_fmt ++ ":")) := by
  simp only [handle_print_request]
  rw [if_neg h]
  by_cases htext : trim_start (trim_start_matches msg.content PRINT_COMMAND) ≠ ""
  · rw [if_pos htext]
    cases hv : W.validate_url (trim_start (trim_start_matches msg.content PRINT_COMMAND)) with
    | none =>
      simpa using handle_attachments_head W msg.attachments _ _
    | some url =>
      cases hp : W.print_image url with
      | ok img =>
        simp only [hp]
        simpa using handle_attachments_head W msg.attachments _ _
      | error e =>
        simp only [hp]
        simp
  · rw [if_neg htext]
    simpa using handle_attachments_head W msg.attachments _ _

/-- C9, witness: a concrete request with body text against the offline
pipeline double; the header fits in 32 characters, so the long form is sent
first. -/
theorem c9_header_line_witness :
    (handle_print_request noNetwork
      { content := "!print hello", attachments := [],
        author_name := "al", timestamp_fmt := "01/02/03 04:05" }).1.head? =
      some (PrinterMsg.Text
        (if ("al" ++ " " ++ "01/02/03 04:05" ++ ":").length > PRINTER_CHARS_PER_LINE
         then "al" ++ ": "
         else "al" ++ " " ++ "01/02/03 04:05" ++ ":")) :=
  c9_header_line noNetwork
    { content := "!print hello", attachments := [],
      author_name := "al", timestamp_fmt := "01/02/03 04:05" }
    (by decide)

end PrintBot
